import Mathlib

/-!
Verification development for the Google-Forms creation script
(`createGoogleForm.py`).  The Python code is shallowly embedded: every
builder method of `GoogleFormsCreator` that constructs request payloads
becomes a pure Lean function on an explicit configuration record, and the
orchestration method `create_form_from_config` becomes a function that
returns the ordered trace of remote calls it issues together with its
result (or the raised error).

Python dictionary accesses `config.get(key, default)` are embedded as
`Option` fields read with `Option.getD`.  Python truthiness of an optional
string (`if config.get(k):`) is "present and non-empty"; truthiness of a
list is non-emptiness.
-/

deriving instance DecidableEq for Except

namespace GForms

/-- The `feedback` sub-dictionary of a question configuration
(`feedback.correct`, `feedback.incorrect`, `feedback.general`). -/
structure Feedback where
  correct : Option String := none
  incorrect : Option String := none
  general : Option String := none
deriving Repr, DecidableEq

/-- One question configuration, mirroring the dictionary consumed by
`_create_question_request` and the per-type builders.  The Python key
`"type"` is embedded as the field `qtype`. -/
structure QuestionConfig where
  qtype : Option String := none
  title : Option String := none
  description : Option String := none
  required : Option Bool := none
  options : List String := []
  shuffle : Option Bool := none
  correct_answers : List String := []
  correct_answer : Option String := none
  points : Option Int := none
  feedback : Feedback := {}
  low : Option Int := none
  high : Option Int := none
  low_label : Option String := none
  high_label : Option String := none
  image_url : Option String := none
deriving Repr, DecidableEq

/-- The `form_info` sub-dictionary of the top-level configuration. -/
structure FormInfo where
  title : Option String := none
  description : Option String := none
deriving Repr, DecidableEq

/-- The top-level form configuration consumed by
`create_form_from_config`.  (`quiz_settings` is read by the source but
never used, so it is not represented.) -/
structure FormConfig where
  form_info : Option FormInfo := none
  is_quiz : Option Bool := none
  questions : List QuestionConfig := []
deriving Repr, DecidableEq

/-- One option object of a `choiceQuestion` payload.  The remote schema
admits a per-option correctness marker; the source deliberately never
sets it (`# Don't add isCorrect field - handle this in grading section`),
so builders always leave `isCorrect` at `none`. -/
structure ChoiceOption where
  value : String
  isCorrect : Option Bool := none
deriving Repr, DecidableEq

/-- One answer object inside a grading block's `correctAnswers.answers`. -/
structure AnswerVal where
  value : String
deriving Repr, DecidableEq

/-- A `grading` block of a question payload.  `whenRight`, `whenWrong`
and `generalFeedback` stand for the corresponding `{"text": ...}`
objects, represented by their text. -/
structure Grading where
  pointValue : Int
  correctAnswers : Option (List AnswerVal) := none
  whenRight : Option String := none
  whenWrong : Option String := none
  generalFeedback : Option String := none
deriving Repr, DecidableEq

/-- The type-specific part of a question payload. -/
inductive QuestionKind where
  | choiceQuestion (ctype : String) (options : List ChoiceOption) (shuffle : Bool)
  | textQuestion (paragraph : Bool)
  | scaleQuestion (low high : Int) (lowLabel highLabel : String)
deriving Repr, DecidableEq

/-- The `question` object of a question item. -/
structure QuestionBody where
  required : Bool
  kind : QuestionKind
  grading : Option Grading := none
deriving Repr, DecidableEq

/-- The `questionItem` object: the question plus an optional image
attachment, represented by its `sourceUri`. -/
structure QuestionItem where
  question : QuestionBody
  image : Option String := none
deriving Repr, DecidableEq

/-- The item of a `createItem` request: title, description and the
question item. -/
structure Item where
  title : String
  description : String
  questionItem : QuestionItem
deriving Repr, DecidableEq

/-- A whole `createItem` request: the item plus its `location.index`. -/
structure CreateItemRequest where
  item : Item
  index : Nat
deriving Repr, DecidableEq

/-- Emptiness of a string, on the character list (Python `len(s) == 0`). -/
def strEmpty (s : String) : Bool := s.data.isEmpty

/-- Python `s.startswith(p)`, on the character lists. -/
def strStarts (s p : String) : Bool := p.data.isPrefixOf s.data

/-- Python `s.upper()`: uppercase every character. -/
def strUpper (s : String) : String := String.mk (s.data.map Char.toUpper)

/-- Python truthiness of an optional string: present and non-empty. -/
def truthy : Option String → Bool
  | some s => !strEmpty s
  | none => false

/-- The pattern `if d.get(k): out[f] = d.get(k, dflt)` — keep the string
when it is truthy, else omit the field. -/
def optIfTruthy : Option String → Option String
  | some s => if strEmpty s then none else some s
  | none => none

/-- The hard-coded placeholder image URL tested by exact match. -/
def placeholderExact : String := "https://example.com/code-snippet.png"

/-- The placeholder domain tested by `startswith`. -/
def placeholderDomain : String := "https://example.com"

/-- Whether `image_url` is recognized as a placeholder: exact match on the
canonical URL or prefix match on the placeholder domain. -/
def isPlaceholder (u : String) : Bool :=
  u == placeholderExact || strStarts u placeholderDomain

/-- The image-attachment rule shared by all builders:
`if image_url and image_url != placeholderExact and not
image_url.startswith(placeholderDomain): attach {"sourceUri": image_url}`. -/
def imageFor (cfg : QuestionConfig) : Option String :=
  match cfg.image_url with
  | some u =>
      if !strEmpty u && u != placeholderExact && !strStarts u placeholderDomain then
        some u
      else
        none
  | none => none

/-- The normalized question type: `config.get("type", "RADIO").upper()`. -/
def normType (cfg : QuestionConfig) : String :=
  strUpper (cfg.qtype.getD "RADIO")

/-- Embeds `_create_choice_question`: RADIO / CHECKBOX builder. -/
def createChoiceQuestion (cfg : QuestionConfig) (index : Nat) (is_quiz : Bool) :
    CreateItemRequest :=
  { item :=
      { title := cfg.title.getD "Untitled Question"
      , description := cfg.description.getD ""
      , questionItem :=
          { question :=
              { required := cfg.required.getD false
              , kind := QuestionKind.choiceQuestion (normType cfg)
                  (cfg.options.map fun o => { value := o }) (cfg.shuffle.getD false)
              , grading :=
                  if is_quiz && !cfg.correct_answers.isEmpty then
                    some
                      { pointValue := cfg.points.getD 1
                      , correctAnswers :=
                          some (cfg.correct_answers.map fun a => { value := a })
                      , whenRight := optIfTruthy cfg.feedback.correct
                      , whenWrong := optIfTruthy cfg.feedback.incorrect }
                  else
                    none }
          , image := imageFor cfg } }
  , index := index }

/-- Embeds `_create_text_question`: short-text builder. -/
def createTextQuestion (cfg : QuestionConfig) (index : Nat) (is_quiz : Bool) :
    CreateItemRequest :=
  { item :=
      { title := cfg.title.getD "Untitled Question"
      , description := cfg.description.getD ""
      , questionItem :=
          { question :=
              { required := cfg.required.getD false
              , kind := QuestionKind.textQuestion false
              , grading :=
                  if is_quiz && !cfg.correct_answers.isEmpty then
                    some
                      { pointValue := cfg.points.getD 1
                      , correctAnswers :=
                          some (cfg.correct_answers.map fun a => { value := a })
                      , generalFeedback := optIfTruthy cfg.feedback.general }
                  else if is_quiz && decide (cfg.points.getD 0 > 0) then
                    some
                      { pointValue := cfg.points.getD 1
                      , generalFeedback := optIfTruthy cfg.feedback.general }
                  else
                    none }
          , image := imageFor cfg } }
  , index := index }

/-- Embeds `_create_paragraph_question`: paragraph-text builder. -/
def createParagraphQuestion (cfg : QuestionConfig) (index : Nat) (is_quiz : Bool) :
    CreateItemRequest :=
  { item :=
      { title := cfg.title.getD "Untitled Question"
      , description := cfg.description.getD ""
      , questionItem :=
          { question :=
              { required := cfg.required.getD false
              , kind := QuestionKind.textQuestion true
              , grading :=
                  if is_quiz && decide (cfg.points.getD 0 > 0) then
                    some
                      { pointValue := cfg.points.getD 1
                      , generalFeedback := optIfTruthy cfg.feedback.general }
                  else
                    none }
          , image := imageFor cfg } }
  , index := index }

/-- Embeds `_create_scale_question`: linear-scale builder.  The Python source
applies `str(...)` to `correct_answer`; on the string-valued field of the
data model this is the identity. -/
def createScaleQuestion (cfg : QuestionConfig) (index : Nat) (is_quiz : Bool) :
    CreateItemRequest :=
  { item :=
      { title := cfg.title.getD "Untitled Question"
      , description := cfg.description.getD ""
      , questionItem :=
          { question :=
              { required := cfg.required.getD false
              , kind := QuestionKind.scaleQuestion (cfg.low.getD 1) (cfg.high.getD 5)
                  (cfg.low_label.getD "") (cfg.high_label.getD "")
              , grading :=
                  if is_quiz && truthy cfg.correct_answer then
                    some
                      { pointValue := cfg.points.getD 1
                      , correctAnswers := some [{ value := cfg.correct_answer.getD "" }] }
                  else if is_quiz && decide (cfg.points.getD 0 > 0) then
                    some { pointValue := cfg.points.getD 1 }
                  else
                    none }
          , image := imageFor cfg } }
  , index := index }

/-- The note appended to the description of an IMAGE question whose
`image_url` is a placeholder. -/
def placeholderNote : String :=
  "[Note: Image placeholder removed - please add a valid image URL]"

/-- Python's whitespace set for `str.strip()`. -/
def pyWs (c : Char) : Bool :=
  c == ' ' || c == '\t' || c == '\n' || c == '\r' ||
    c == Char.ofNat 11 || c == Char.ofNat 12

/-- Python `str.strip()`: drop leading and trailing whitespace. -/
def pyStrip (s : String) : String :=
  String.mk (((s.data.dropWhile pyWs).reverse.dropWhile pyWs).reverse)

/-- Embeds `_create_image_question`: image-question builder (RADIO-shaped).
For a truthy placeholder URL the description is rewritten to
`f"{current_desc}\n[Note: ...]".strip()` and no image is attached. -/
def createImageQuestion (cfg : QuestionConfig) (index : Nat) (is_quiz : Bool) :
    CreateItemRequest :=
  let baseDesc := cfg.description.getD ""
  { item :=
      { title := cfg.title.getD "Untitled Question"
      , description :=
          match cfg.image_url with
          | some u =>
              if !strEmpty u && isPlaceholder u then
                pyStrip (baseDesc ++ "\n" ++ placeholderNote)
              else
                baseDesc
          | none => baseDesc
      , questionItem :=
          { question :=
              { required := cfg.required.getD false
              , kind := QuestionKind.choiceQuestion "RADIO"
                  (cfg.options.map fun o => { value := o }) (cfg.shuffle.getD false)
              , grading :=
                  if is_quiz && !cfg.correct_answers.isEmpty then
                    some
                      { pointValue := cfg.points.getD 1
                      , correctAnswers :=
                          some (cfg.correct_answers.map fun a => { value := a })
                      , whenRight := optIfTruthy cfg.feedback.correct
                      , whenWrong := optIfTruthy cfg.feedback.incorrect }
                  else
                    none }
          , image := imageFor cfg } }
  , index := index }

/-- Embeds `_create_question_request`: dispatch on the normalized type;
unrecognized values raise `ValueError(f"Unsupported question type: {t}")`. -/
def createQuestionRequest (cfg : QuestionConfig) (index : Nat) (is_quiz : Bool) :
    Except String CreateItemRequest :=
  let qt := normType cfg
  if qt == "RADIO" || qt == "CHECKBOX" then
    Except.ok (createChoiceQuestion cfg index is_quiz)
  else if qt == "TEXT" then
    Except.ok (createTextQuestion cfg index is_quiz)
  else if qt == "PARAGRAPH_TEXT" then
    Except.ok (createParagraphQuestion cfg index is_quiz)
  else if qt == "SCALE" then
    Except.ok (createScaleQuestion cfg index is_quiz)
  else if qt == "IMAGE" then
    Except.ok (createImageQuestion cfg index is_quiz)
  else
    Except.error ("Unsupported question type: " ++ qt)

/-- The supported question types of the dispatch. -/
def supportedType (qt : String) : Bool :=
  qt == "RADIO" || qt == "CHECKBOX" || qt == "TEXT" || qt == "PARAGRAPH_TEXT" ||
    qt == "SCALE" || qt == "IMAGE"

/-- The request-building loop of `_add_questions_to_form`, carrying the
running `enumerate` index.  The first raised error aborts the whole
build; no partially built list is ever submitted. -/
def buildRequestsFrom (questions : List QuestionConfig) (start : Nat) (is_quiz : Bool) :
    Except String (List CreateItemRequest) :=
  match questions with
  | [] => Except.ok []
  | q :: rest =>
      match createQuestionRequest q start is_quiz with
      | Except.error e => Except.error e
      | Except.ok r =>
          match buildRequestsFrom rest (start + 1) is_quiz with
          | Except.error e => Except.error e
          | Except.ok rs => Except.ok (r :: rs)

/-- All question requests of one batch, indices starting at 0. -/
def buildQuestionRequests (questions : List QuestionConfig) (is_quiz : Bool) :
    Except String (List CreateItemRequest) :=
  buildRequestsFrom questions 0 is_quiz

/-- One operation inside a `batchUpdate` body. -/
inductive BatchOp where
  | updateFormInfo (title description : String)
  | updateSettingsQuiz
  | createItem (req : CreateItemRequest)
deriving Repr, DecidableEq

/-- One remote call issued to the forms service, in issue order. -/
inductive RemoteCall where
  | createForm (title : String)
  | batchUpdate (ops : List BatchOp)
  | getForm
deriving Repr, DecidableEq

/-- The value returned by `create_form_from_config`. -/
structure FormResult where
  form_id : String
  responder_uri : Option String
  edit_uri : String
deriving Repr, DecidableEq

/-- The settings-phase batch body built by `create_form_from_config`:
one description update when a description was supplied, plus the
quiz-mode toggle when the form is a quiz. -/
def settingsOpsFor (title : String) (desc : Option String) (is_quiz : Bool) :
    List BatchOp :=
  (if truthy desc then [BatchOp.updateFormInfo title (desc.getD "")] else []) ++
    (if is_quiz then [BatchOp.updateSettingsQuiz] else [])

/-- Embeds `create_form_from_config` as a function from the
configuration and the remote environment (the form id returned by the
create call and the `responderUri` field of the final `get` response) to
the ordered trace of remote calls actually issued and the returned
result, or the propagated error.  On an error raised while building the
question batch, the trace stops before the questions-phase
`batchUpdate` and before the final `getForm`. -/
def createFormFromConfig (cfg : FormConfig) (formId : String)
    (responderUri : Option String) :
    List RemoteCall × Except String FormResult :=
  let fi := cfg.form_info.getD { title := some "API-created form" }
  let title := fi.title.getD "API-created form"
  let is_quiz := cfg.is_quiz.getD true
  let settingsOps := settingsOpsFor title fi.description is_quiz
  let trace1 :=
    [RemoteCall.createForm title] ++
      (if settingsOps.isEmpty then [] else [RemoteCall.batchUpdate settingsOps])
  let result : FormResult :=
    { form_id := formId
    , responder_uri := responderUri
    , edit_uri := "https://docs.google.com/forms/d/" ++ formId ++ "/edit" }
  if cfg.questions.isEmpty then
    (trace1 ++ [RemoteCall.getForm], Except.ok result)
  else
    match buildQuestionRequests cfg.questions is_quiz with
    | Except.error e => (trace1, Except.error e)
    | Except.ok reqs =>
        let trace2 :=
          trace1 ++
            (if reqs.isEmpty then []
              else [RemoteCall.batchUpdate (reqs.map BatchOp.createItem)])
        (trace2 ++ [RemoteCall.getForm], Except.ok result)

/-! ### Helper lemmas about the builders -/

/-- Grading presence for `_create_choice_question`. -/
lemma choice_grading_isSome (cfg : QuestionConfig) (i : Nat) (q : Bool) :
    (createChoiceQuestion cfg i q).item.questionItem.question.grading.isSome
      = (q && !cfg.correct_answers.isEmpty) := by
  simp only [createChoiceQuestion]
  by_cases hc : (q && !cfg.correct_answers.isEmpty) = true <;> simp [hc]

/-- Grading presence for `_create_text_question`. -/
lemma text_grading_isSome (cfg : QuestionConfig) (i : Nat) (q : Bool) :
    (createTextQuestion cfg i q).item.questionItem.question.grading.isSome
      = (q && (!cfg.correct_answers.isEmpty || decide (cfg.points.getD 0 > 0))) := by
  simp only [createTextQuestion]
  cases q <;> cases hca : cfg.correct_answers.isEmpty <;>
    cases hp : decide (cfg.points.getD 0 > 0) <;> simp [hca, hp]

/-- Grading presence for `_create_paragraph_question`. -/
lemma paragraph_grading_isSome (cfg : QuestionConfig) (i : Nat) (q : Bool) :
    (createParagraphQuestion cfg i q).item.questionItem.question.grading.isSome
      = (q && decide (cfg.points.getD 0 > 0)) := by
  simp only [createParagraphQuestion]
  cases q <;> cases hp : decide (cfg.points.getD 0 > 0) <;> simp [hp]

/-- Grading presence for `_create_scale_question`. -/
lemma scale_grading_isSome (cfg : QuestionConfig) (i : Nat) (q : Bool) :
    (createScaleQuestion cfg i q).item.questionItem.question.grading.isSome
      = (q && (truthy cfg.correct_answer || decide (cfg.points.getD 0 > 0))) := by
  simp only [createScaleQuestion]
  cases q <;> cases hca : truthy cfg.correct_answer <;>
    cases hp : decide (cfg.points.getD 0 > 0) <;> simp [hca, hp]

/-- Grading presence for `_create_image_question`. -/
lemma image_grading_isSome (cfg : QuestionConfig) (i : Nat) (q : Bool) :
    (createImageQuestion cfg i q).item.questionItem.question.grading.isSome
      = (q && !cfg.correct_answers.isEmpty) := by
  simp only [createImageQuestion]
  by_cases hc : (q && !cfg.correct_answers.isEmpty) = true <;> simp [hc]

/-- Case analysis on a successful dispatch: the normalized type is one of
the supported ones and the result is the corresponding builder's output. -/
lemma dispatch_cases (cfg : QuestionConfig) (i : Nat) (q : Bool)
    (r : CreateItemRequest) (h : createQuestionRequest cfg i q = Except.ok r) :
    ((normType cfg = "RADIO" ∨ normType cfg = "CHECKBOX") ∧
        r = createChoiceQuestion cfg i q) ∨
    (normType cfg = "TEXT" ∧ r = createTextQuestion cfg i q) ∨
    (normType cfg = "PARAGRAPH_TEXT" ∧ r = createParagraphQuestion cfg i q) ∨
    (normType cfg = "SCALE" ∧ r = createScaleQuestion cfg i q) ∨
    (normType cfg = "IMAGE" ∧ r = createImageQuestion cfg i q) := by
  simp only [createQuestionRequest] at h
  split_ifs at h with h1 h2 h3 h4 h5 <;>
    simp only [Except.ok.injEq, reduceCtorEq] at h
  · exact Or.inl ⟨by simpa using h1, h.symm⟩
  · exact Or.inr (Or.inl ⟨by simpa using h2, h.symm⟩)
  · exact Or.inr (Or.inr (Or.inl ⟨by simpa using h3, h.symm⟩))
  · exact Or.inr (Or.inr (Or.inr (Or.inl ⟨by simpa using h4, h.symm⟩)))
  · exact Or.inr (Or.inr (Or.inr (Or.inr ⟨by simpa using h5, h.symm⟩)))

/-- An unsupported normalized type makes the dispatch raise the
`Unsupported question type` error naming that type. -/
lemma dispatch_error (cfg : QuestionConfig) (i : Nat) (q : Bool)
    (h : supportedType (normType cfg) = false) :
    createQuestionRequest cfg i q
      = Except.error ("Unsupported question type: " ++ normType cfg) := by
  simp only [supportedType, Bool.or_eq_false_iff, beq_eq_false_iff_ne] at h
  obtain ⟨⟨⟨⟨⟨n1, n2⟩, n3⟩, n4⟩, n5⟩, n6⟩ := h
  simp [createQuestionRequest, n1, n2, n3, n4, n5, n6]

/-- A supported normalized type makes the dispatch succeed. -/
lemma dispatch_ok (cfg : QuestionConfig) (i : Nat) (q : Bool)
    (h : supportedType (normType cfg) = true) :
    ∃ r, createQuestionRequest cfg i q = Except.ok r := by
  simp only [supportedType, Bool.or_eq_true, beq_iff_eq] at h
  rcases h with ((((h | h) | h) | h) | h) | h <;>
    [exact ⟨createChoiceQuestion cfg i q, by simp [createQuestionRequest, h]⟩;
      exact ⟨createChoiceQuestion cfg i q, by simp [createQuestionRequest, h]⟩;
      exact ⟨createTextQuestion cfg i q, by simp [createQuestionRequest, h]⟩;
      exact ⟨createParagraphQuestion cfg i q, by simp [createQuestionRequest, h]⟩;
      exact ⟨createScaleQuestion cfg i q, by simp [createQuestionRequest, h]⟩;
      exact ⟨createImageQuestion cfg i q, by simp [createQuestionRequest, h]⟩]

/-! ### Claim C1 -/

/-- The spec-side grading trigger, following the claim's words: a
non-empty `correct_answers` for RADIO/CHECKBOX/IMAGE; `correct_answers`
or positive `points` for TEXT; positive `points` for PARAGRAPH_TEXT; a
non-empty `correct_answer` or positive `points` for SCALE.  This is the
second definition of a refinement comparison; the source-side behavior
is the builders above. -/
def specGradingTrigger (cfg : QuestionConfig) : Bool :=
  let qt := normType cfg
  if qt == "RADIO" || qt == "CHECKBOX" || qt == "IMAGE" then
    !cfg.correct_answers.isEmpty
  else if qt == "TEXT" then
    !cfg.correct_answers.isEmpty || decide (cfg.points.getD 0 > 0)
  else if qt == "PARAGRAPH_TEXT" then
    decide (cfg.points.getD 0 > 0)
  else
    truthy cfg.correct_answer || decide (cfg.points.getD 0 > 0)

/-- C1: for every question configuration, index and quiz flag, a
successfully built request carries a grading block exactly when the form
is a quiz and the configuration supplies the type's non-empty trigger
(`specGradingTrigger`); in particular with `is_quiz = false` no request
of any type carries a grading block. -/
theorem c1_grading_iff_quiz_and_trigger (cfg : QuestionConfig) (i : Nat)
    (q : Bool) (r : CreateItemRequest)
    (h : createQuestionRequest cfg i q = Except.ok r) :
    r.item.questionItem.question.grading.isSome = (q && specGradingTrigger cfg) := by
  rcases dispatch_cases cfg i q r h with
    ⟨ht, hr⟩ | ⟨ht, hr⟩ | ⟨ht, hr⟩ | ⟨ht, hr⟩ | ⟨ht, hr⟩
  · rcases ht with ht | ht <;>
      simp [hr, choice_grading_isSome, specGradingTrigger, ht]
  · simp [hr, text_grading_isSome, specGradingTrigger, ht]
  · simp [hr, paragraph_grading_isSome, specGradingTrigger, ht]
  · simp [hr, scale_grading_isSome, specGradingTrigger, ht]
  · simp [hr, image_grading_isSome, specGradingTrigger, ht]

/-- C1 witness: a concrete CHECKBOX quiz question with a correct answer
gets a grading block, as the trigger demands. -/
theorem c1_witness :
    (createChoiceQuestion
          { qtype := some "CHECKBOX", options := ["A", "B"],
            correct_answers := ["B"] } 0 true).item.questionItem.question.grading.isSome
      = (true && specGradingTrigger
          { qtype := some "CHECKBOX", options := ["A", "B"],
            correct_answers := ["B"] }) :=
  c1_grading_iff_quiz_and_trigger
    { qtype := some "CHECKBOX", options := ["A", "B"], correct_answers := ["B"] }
    0 true
    (createChoiceQuestion
      { qtype := some "CHECKBOX", options := ["A", "B"], correct_answers := ["B"] }
      0 true)
    (by decide)

/-! ### Claim C2 -/

/-- Every builder stores the given index as the request's
`location.index`. -/
lemma createQuestionRequest_index (cfg : QuestionConfig) (i : Nat) (q : Bool)
    (r : CreateItemRequest) (h : createQuestionRequest cfg i q = Except.ok r) :
    r.index = i := by
  rcases dispatch_cases cfg i q r h with
    ⟨_, hr⟩ | ⟨_, hr⟩ | ⟨_, hr⟩ | ⟨_, hr⟩ | ⟨_, hr⟩ <;>
    simp [hr, createChoiceQuestion, createTextQuestion, createParagraphQuestion,
      createScaleQuestion, createImageQuestion]

/-- The request-building loop assigns the consecutive indices
`s, s+1, ...` in input order. -/
lemma buildRequestsFrom_map_index :
    ∀ (qs : List QuestionConfig) (s : Nat) (b : Bool)
      (rs : List CreateItemRequest),
      buildRequestsFrom qs s b = Except.ok rs →
      rs.map (fun r => r.index) = List.range' s qs.length := by
  intro qs
  induction qs with
  | nil =>
      intro s b rs h
      simp only [buildRequestsFrom, Except.ok.injEq] at h
      simp [← h, List.range']
  | cons q' rest ih =>
      intro s b rs h
      simp only [buildRequestsFrom] at h
      cases hq : createQuestionRequest q' s b with
      | error e => rw [hq] at h; simp at h
      | ok r =>
          rw [hq] at h
          cases hrest : buildRequestsFrom rest (s + 1) b with
          | error e => rw [hrest] at h; simp at h
          | ok rs' =>
              rw [hrest] at h
              simp only [Except.ok.injEq] at h
              subst h
              simp [List.range', ih (s + 1) b rs' hrest,
                createQuestionRequest_index q' s b r hq]

/-- C2: a successful build of an ordered question sequence yields one
request per question, and their `location.index` values are exactly
`0..N-1` in input order (hence unique and contiguous). -/
theorem c2_indices_are_range (qs : List QuestionConfig) (b : Bool)
    (rs : List CreateItemRequest) (h : buildQuestionRequests qs b = Except.ok rs) :
    rs.length = qs.length ∧
      rs.map (fun r => r.index) = List.range qs.length := by
  have hm := buildRequestsFrom_map_index qs 0 b rs h
  refine ⟨?_, ?_⟩
  · have := congrArg List.length hm
    simpa using this
  · simpa [List.range_eq_range'] using hm

/-- C2 witness: a concrete two-question build yields indices `[0, 1]`. -/
theorem c2_witness :
    [createChoiceQuestion ({} : QuestionConfig) 0 true,
        createTextQuestion { qtype := some "TEXT" } 1 true].length
      = [({} : QuestionConfig), { qtype := some "TEXT" }].length ∧
    [createChoiceQuestion ({} : QuestionConfig) 0 true,
        createTextQuestion { qtype := some "TEXT" } 1 true].map (fun r => r.index)
      = List.range [({} : QuestionConfig), { qtype := some "TEXT" }].length :=
  c2_indices_are_range [({} : QuestionConfig), { qtype := some "TEXT" }] true
    [createChoiceQuestion ({} : QuestionConfig) 0 true,
      createTextQuestion { qtype := some "TEXT" } 1 true]
    (by decide)

/-! ### Claim C3 -/

/-- A sequence containing an unsupported question type makes the whole
build fail with the `Unsupported question type` error naming the
offending value. -/
lemma buildRequestsFrom_error_of_unsupported :
    ∀ (qs : List QuestionConfig) (s : Nat) (b : Bool),
      (∃ qc ∈ qs, supportedType (normType qc) = false) →
      ∃ qc ∈ qs, supportedType (normType qc) = false ∧
        buildRequestsFrom qs s b
          = Except.error ("Unsupported question type: " ++ normType qc) := by
  intro qs
  induction qs with
  | nil => intro s b h; simp at h
  | cons q' rest ih =>
      intro s b h
      by_cases hq : supportedType (normType q') = true
      · have hrest : ∃ qc ∈ rest, supportedType (normType qc) = false := by
          rcases h with ⟨qc, hmem, hbad⟩
          rcases List.mem_cons.mp hmem with rfl | hmem'
          · rw [hq] at hbad; cases hbad
          · exact ⟨qc, hmem', hbad⟩
        obtain ⟨qc, hmem, hbad, herr⟩ := ih (s + 1) b hrest
        obtain ⟨r, hr⟩ := dispatch_ok q' s b hq
        refine ⟨qc, List.mem_cons_of_mem _ hmem, hbad, ?_⟩
        simp only [buildRequestsFrom]
        rw [hr, herr]
      · have hq' : supportedType (normType q') = false := by
          cases hsup : supportedType (normType q')
          · rfl
          · exact absurd hsup hq
        refine ⟨q', List.mem_cons_self _ _, hq', ?_⟩
        simp only [buildRequestsFrom]
        rw [dispatch_error q' s b hq']

/-- An operation is a question-creating `createItem` operation. -/
def hasCreateItem : BatchOp → Bool
  | BatchOp.createItem _ => true
  | _ => false

/-- A remote call is a questions-phase `batchUpdate`: one whose body
contains a `createItem` operation. -/
def isQuestionsBatch : RemoteCall → Bool
  | RemoteCall.batchUpdate ops => ops.any hasCreateItem
  | _ => false

/-- The settings-phase batch contains no `createItem` operation. -/
lemma settingsOps_no_createItem (t : String) (d : Option String) (b : Bool) :
    (settingsOpsFor t d b).any hasCreateItem = false := by
  cases htd : truthy d <;> cases b <;>
    simp [settingsOpsFor, htd, hasCreateItem]

/-- C3: when any question in the sequence declares an unsupported type,
the whole run fails with an `Unsupported question type` error naming the
offending value, and the trace of remote calls contains no
questions-phase `batchUpdate` at all — no question, earlier or later,
is ever submitted. -/
theorem c3_unsupported_type_aborts_whole_batch (cfg : FormConfig)
    (formId : String) (ruri : Option String)
    (h : ∃ qc ∈ cfg.questions, supportedType (normType qc) = false) :
    (∃ qc ∈ cfg.questions, supportedType (normType qc) = false ∧
        (createFormFromConfig cfg formId ruri).2
          = Except.error ("Unsupported question type: " ++ normType qc)) ∧
    ∀ c ∈ (createFormFromConfig cfg formId ruri).1, isQuestionsBatch c = false := by
  obtain ⟨qc, hmem, hbad, herr⟩ :=
    buildRequestsFrom_error_of_unsupported cfg.questions 0 (cfg.is_quiz.getD true) h
  have hne : cfg.questions.isEmpty = false := by
    cases hqs : cfg.questions
    · rw [hqs] at hmem; simp at hmem
    · simp [hqs]
  constructor
  · refine ⟨qc, hmem, hbad, ?_⟩
    simp only [createFormFromConfig, buildQuestionRequests, hne]
    rw [herr]
    simp
  · intro c hc
    simp only [createFormFromConfig, buildQuestionRequests, hne] at hc
    rw [herr] at hc
    simp only [Bool.false_eq_true, if_false, List.mem_append, List.cons_append,
      List.nil_append, List.mem_cons] at hc
    rcases hc with hc | hc
    · subst hc
      rfl
    · by_cases hso : (settingsOpsFor
          ((cfg.form_info.getD { title := some "API-created form" }).title.getD
            "API-created form")
          (cfg.form_info.getD { title := some "API-created form" }).description
          (cfg.is_quiz.getD true)).isEmpty = true
      · simp [hso] at hc
      · simp only [hso, if_false, Bool.false_eq_true, List.mem_singleton] at hc
        subst hc
        simp [isQuestionsBatch, settingsOps_no_createItem]

/-- Concrete three-question sequence whose middle question has the
unsupported type `DATE`. -/
def badQuestions : List QuestionConfig :=
  [{}, { qtype := some "DATE" }, {}]

/-- C3 witness: the three-question run with the invalid middle question
fails and issues no questions-phase batch. -/
theorem c3_witness :
    (∃ qc ∈ badQuestions, supportedType (normType qc) = false ∧
        (createFormFromConfig { questions := badQuestions } "f" none).2
          = Except.error ("Unsupported question type: " ++ normType qc)) ∧
    ∀ c ∈ (createFormFromConfig { questions := badQuestions } "f" none).1,
      isQuestionsBatch c = false :=
  c3_unsupported_type_aborts_whole_batch { questions := badQuestions } "f" none
    ⟨{ qtype := some "DATE" }, by decide, by decide⟩

/-! ### Claims C4 and C5 -/

/-- A non-empty string is non-empty on its character list. -/
lemma strEmpty_eq_false_of_ne (s : String) (h : s ≠ "") : strEmpty s = false := by
  cases s with
  | mk l =>
      cases l with
      | nil => exact absurd rfl h
      | cons c cs => rfl

/-- C4: a TEXT question built under `is_quiz = true` with a non-empty
`correct_answers` list and positive `points` gets its grading from the
correct-answer branch — `pointValue` plus the `correctAnswers` list (and
optional general feedback) — never from the points-only branch: the two
triggers are mutually exclusive and `correct_answers` wins. -/
theorem c4_text_correct_answer_branch_wins (cfg : QuestionConfig) (i : Nat)
    (r : CreateItemRequest) (p : Int)
    (ht : normType cfg = "TEXT") (hca : cfg.correct_answers ≠ [])
    (hp : cfg.points = some p) (hpos : 0 < p)
    (h : createQuestionRequest cfg i true = Except.ok r) :
    r.item.questionItem.question.grading
      = some
          { pointValue := p
          , correctAnswers := some (cfg.correct_answers.map fun a => { value := a })
          , generalFeedback := optIfTruthy cfg.feedback.general } := by
  rcases dispatch_cases cfg i true r h with
    ⟨ht', hr⟩ | ⟨ht', hr⟩ | ⟨ht', hr⟩ | ⟨ht', hr⟩ | ⟨ht', hr⟩
  · rcases ht' with ht' | ht' <;> rw [ht] at ht' <;> simp at ht'
  · have hempty : cfg.correct_answers.isEmpty = false := by
      simpa [List.isEmpty_iff] using hca
    simp [hr, createTextQuestion, hempty, hp]
  · rw [ht] at ht'; simp at ht'
  · rw [ht] at ht'; simp at ht'
  · rw [ht] at ht'; simp at ht'

/-- C4 witness: the spec's own scenario — `correct_answers = ["Paris"]`
and `points = 5` under `is_quiz = true`. -/
theorem c4_witness :
    (createTextQuestion
          { qtype := some "TEXT", correct_answers := ["Paris"], points := some 5 }
          0 true).item.questionItem.question.grading
      = some
          { pointValue := 5
          , correctAnswers :=
              some ((["Paris"] : List String).map fun a => { value := a })
          , generalFeedback :=
              optIfTruthy
                ({ qtype := some "TEXT", correct_answers := ["Paris"],
                    points := some 5 } : QuestionConfig).feedback.general } :=
  c4_text_correct_answer_branch_wins
    { qtype := some "TEXT", correct_answers := ["Paris"], points := some 5 } 0
    (createTextQuestion
      { qtype := some "TEXT", correct_answers := ["Paris"], points := some 5 }
      0 true)
    5 (by decide) (by decide) (by decide) (by decide) (by decide)

/-- C5: a SCALE question built under `is_quiz = true` with a non-empty
`correct_answer` and positive `points` gets a single-answer grading
block whose answer value is the `correct_answer` string — never the
points-only block: `correct_answer` takes precedence over the bare
`points > 0` fallback. -/
theorem c5_scale_correct_answer_precedence (cfg : QuestionConfig) (i : Nat)
    (r : CreateItemRequest) (ca : String) (p : Int)
    (ht : normType cfg = "SCALE") (hca : cfg.correct_answer = some ca)
    (hne : ca ≠ "") (hp : cfg.points = some p) (hpos : 0 < p)
    (h : createQuestionRequest cfg i true = Except.ok r) :
    r.item.questionItem.question.grading
      = some { pointValue := p, correctAnswers := some [{ value := ca }] } := by
  rcases dispatch_cases cfg i true r h with
    ⟨ht', hr⟩ | ⟨ht', hr⟩ | ⟨ht', hr⟩ | ⟨ht', hr⟩ | ⟨ht', hr⟩
  · rcases ht' with ht' | ht' <;> rw [ht] at ht' <;> simp at ht'
  · rw [ht] at ht'; simp at ht'
  · rw [ht] at ht'; simp at ht'
  · have htr : truthy (some ca) = true := by
      simp [truthy, strEmpty_eq_false_of_ne ca hne]
    simp [hr, createScaleQuestion, hca, htr, hp]
  · rw [ht] at ht'; simp at ht'

/-- C5 witness: the spec's own scenario — `correct_answer = "7"` and
`points = 3`. -/
theorem c5_witness :
    (createScaleQuestion
          { qtype := some "SCALE", correct_answer := some "7", points := some 3 }
          0 true).item.questionItem.question.grading
      = some { pointValue := 3, correctAnswers := some [{ value := "7" }] } :=
  c5_scale_correct_answer_precedence
    { qtype := some "SCALE", correct_answer := some "7", points := some 3 } 0
    (createScaleQuestion
      { qtype := some "SCALE", correct_answer := some "7", points := some 3 }
      0 true)
    "7" 3 (by decide) (by decide) (by decide) (by decide) (by decide) (by decide)

/-! ### Claim C6 -/

/-- A string is its character list. -/
lemma mk_data (s : String) : String.mk s.data = s := by
  cases s
  rfl

/-- Behavior of `List.dropWhile` over an append whose left part is not dropped whole. -/
lemma dropWhile_append_pos {α : Type} (p : α → Bool) (l1 l2 : List α)
    (h : l1.dropWhile p ≠ []) :
    (l1 ++ l2).dropWhile p = l1.dropWhile p ++ l2 := by
  induction l1 with
  | nil => exact absurd rfl h
  | cons a t ih =>
      simp only [List.dropWhile_cons, List.cons_append] at h ⊢
      by_cases hp : p a = true
      · simp only [hp, if_true] at h ⊢
        exact ih h
      · simp [hp]

/-- Behavior of `List.dropWhile` over an append whose left part is dropped whole. -/
lemma dropWhile_append_all {α : Type} (p : α → Bool) (l1 l2 : List α)
    (h : ∀ x ∈ l1, p x = true) :
    (l1 ++ l2).dropWhile p = l2.dropWhile p := by
  induction l1 with
  | nil => simp
  | cons a t ih =>
      simp only [List.cons_append, List.dropWhile_cons,
        h a (List.mem_cons_self a t), if_true]
      exact ih fun x hx => h x (List.mem_cons_of_mem a hx)

/-- What `str.strip()` does to a description with the placeholder note
appended: the trailing note survives intact (it ends in a non-whitespace
character), so only the leading whitespace of the original description
is removed; a whitespace-only description disappears entirely, leaving
just the note. -/
lemma pyStrip_desc_note (d : String) :
    (d.data.dropWhile pyWs ≠ [] ∧
        pyStrip (d ++ "\n" ++ placeholderNote)
          = String.mk (d.data.dropWhile pyWs ++ '\n' :: placeholderNote.data)) ∨
    (d.data.dropWhile pyWs = [] ∧
        pyStrip (d ++ "\n" ++ placeholderNote) = placeholderNote) := by
  have hdata : (d ++ "\n" ++ placeholderNote).data
      = d.data ++ '\n' :: placeholderNote.data := by
    simp [String.data_append]
  by_cases hD : d.data.dropWhile pyWs = []
  · right
    refine ⟨hD, ?_⟩
    unfold pyStrip
    rw [hdata, dropWhile_append_all pyWs d.data _ (List.dropWhile_eq_nil_iff.mp hD)]
    have h1 : ('\n' :: placeholderNote.data).dropWhile pyWs = placeholderNote.data := by
      decide
    have h2 : placeholderNote.data.reverse.dropWhile pyWs
        = placeholderNote.data.reverse := by decide
    rw [h1, h2, List.reverse_reverse]
  · left
    refine ⟨hD, ?_⟩
    unfold pyStrip
    rw [hdata, dropWhile_append_pos pyWs d.data _ hD]
    have h2 : placeholderNote.data.reverse.dropWhile pyWs
        = placeholderNote.data.reverse := by decide
    have h3 : placeholderNote.data.reverse.dropWhile pyWs ≠ [] := by decide
    have hrev : (d.data.dropWhile pyWs ++ '\n' :: placeholderNote.data).reverse
        = placeholderNote.data.reverse ++
            ('\n' :: (d.data.dropWhile pyWs).reverse) := by
      simp
    rw [hrev, dropWhile_append_pos pyWs _ _ h3, h2]
    simp

/-- A placeholder URL is never attached as an image. -/
lemma imageFor_none_of_placeholder (cfg : QuestionConfig) (u : String)
    (hu : cfg.image_url = some u) (hp : isPlaceholder u = true) :
    imageFor cfg = none := by
  simp only [isPlaceholder, Bool.or_eq_true, beq_iff_eq] at hp
  rcases hp with hp | hp
  · simp [imageFor, hu, hp]
  · simp [imageFor, hu, hp]

/-- A placeholder URL is non-empty (the placeholder domain itself is). -/
lemma strEmpty_eq_false_of_placeholder (u : String) (hp : isPlaceholder u = true) :
    strEmpty u = false := by
  simp only [isPlaceholder, Bool.or_eq_true, beq_iff_eq] at hp
  rcases hp with rfl | hp
  · decide
  · simp only [strStarts, List.isPrefixOf_iff_prefix] at hp
    obtain ⟨t, ht⟩ := hp
    cases hu2 : u.data with
    | nil =>
        rw [hu2] at ht
        have hdom : placeholderDomain.data = [] := (List.append_eq_nil.mp ht).1
        exact absurd hdom (by decide)
    | cons c cs => simp [strEmpty, hu2]

/-- The concrete IMAGE question of the counterexample: a two-space
indented description and the canonical placeholder URL. -/
def cfgC6 : QuestionConfig :=
  { qtype := some "IMAGE", description := some "  x",
    image_url := some "https://example.com/code-snippet.png" }

/-- The request the builder produces for `cfgC6`. -/
def reqC6 : CreateItemRequest := createImageQuestion cfgC6 0 false

/-- C6 counterexample: for the IMAGE question `cfgC6`, whose
`image_url` is the canonical placeholder and whose description is
`"  x"`, the builder omits the image and appends the note, but the
append is destructive: `str.strip()` removes the description's leading
whitespace, so the original description `"  x"` is not a prefix of the
produced description `"x\n[Note: ...]"`. -/
theorem c6_counterexample :
    createQuestionRequest cfgC6 0 false = Except.ok reqC6 ∧
    isPlaceholder "https://example.com/code-snippet.png" = true ∧
    reqC6.item.questionItem.image = none ∧
    reqC6.item.description = "x\n" ++ placeholderNote ∧
    ¬ List.IsPrefix ("  x" : String).data reqC6.item.description.data := by
  decide

/-- C6 as amended: for every question configuration whose `image_url`
is recognized as a placeholder, no image attachment is added for any
question type; for the IMAGE type the description becomes the original
description and the placeholder note joined by a newline and then
stripped of leading and trailing whitespace (Python `str.strip()`), so
the original description minus its leading whitespace survives as a
prefix and the note as the suffix. -/
theorem c6_placeholder_never_attached (cfg : QuestionConfig) (i : Nat)
    (q : Bool) (u : String) (r : CreateItemRequest)
    (hu : cfg.image_url = some u) (hp : isPlaceholder u = true)
    (h : createQuestionRequest cfg i q = Except.ok r) :
    r.item.questionItem.image = none ∧
    (normType cfg = "IMAGE" →
      r.item.description
          = pyStrip ((cfg.description.getD "") ++ "\n" ++ placeholderNote) ∧
      List.IsPrefix ((cfg.description.getD "").data.dropWhile pyWs)
        r.item.description.data ∧
      List.IsSuffix placeholderNote.data r.item.description.data) := by
  have himg := imageFor_none_of_placeholder cfg u hu hp
  rcases dispatch_cases cfg i q r h with
    ⟨ht', hr⟩ | ⟨ht', hr⟩ | ⟨ht', hr⟩ | ⟨ht', hr⟩ | ⟨ht', hr⟩
  · refine ⟨by simp [hr, createChoiceQuestion, himg], fun himage => ?_⟩
    rcases ht' with ht' | ht' <;> rw [himage] at ht' <;> simp at ht'
  · refine ⟨by simp [hr, createTextQuestion, himg], fun himage => ?_⟩
    rw [himage] at ht'; simp at ht'
  · refine ⟨by simp [hr, createParagraphQuestion, himg], fun himage => ?_⟩
    rw [himage] at ht'; simp at ht'
  · refine ⟨by simp [hr, createScaleQuestion, himg], fun himage => ?_⟩
    rw [himage] at ht'; simp at ht'
  · refine ⟨by simp [hr, createImageQuestion, himg], fun _ => ?_⟩
    have hne := strEmpty_eq_false_of_placeholder u hp
    have hdesc : r.item.description
        = pyStrip ((cfg.description.getD "") ++ "\n" ++ placeholderNote) := by
      simp [hr, createImageQuestion, hu, hne, hp]
    refine ⟨hdesc, ?_, ?_⟩
    · rcases pyStrip_desc_note (cfg.description.getD "") with ⟨_, hs⟩ | ⟨hnil, hs⟩
      · rw [hdesc, hs]
        exact ⟨'\n' :: placeholderNote.data, rfl⟩
      · rw [hdesc, hs, hnil]
        exact List.nil_prefix
    · rcases pyStrip_desc_note (cfg.description.getD "") with ⟨_, hs⟩ | ⟨hnil, hs⟩
      · rw [hdesc, hs]
        exact ⟨(cfg.description.getD "").data.dropWhile pyWs ++ ['\n'], by simp⟩
      · rw [hdesc, hs]

/-- Concrete IMAGE question with a plain description and a
placeholder-domain URL, for the amended C6. -/
def cfgW6 : QuestionConfig :=
  { qtype := some "IMAGE", description := some "Look",
    image_url := some "https://example.com/x.png" }

/-- C6 witness: the amended claim evaluated on `cfgW6`. -/
theorem c6_witness :
    (createImageQuestion cfgW6 0 true).item.questionItem.image = none ∧
    (normType cfgW6 = "IMAGE" →
      (createImageQuestion cfgW6 0 true).item.description
          = pyStrip ((cfgW6.description.getD "") ++ "\n" ++ placeholderNote) ∧
      List.IsPrefix ((cfgW6.description.getD "").data.dropWhile pyWs)
        (createImageQuestion cfgW6 0 true).item.description.data ∧
      List.IsSuffix placeholderNote.data
        (createImageQuestion cfgW6 0 true).item.description.data) :=
  c6_placeholder_never_attached cfgW6 0 true "https://example.com/x.png"
    (createImageQuestion cfgW6 0 true) (by decide) (by decide) (by decide)

/-! ### Claim C7 -/

/-- Temporal ordering property of a remote-call trace: every
`batchUpdate` carrying the quiz-mode toggle occurs strictly before
every `batchUpdate` carrying a question-creating `createItem`
operation. -/
def quizBeforeQuestions (tr : List RemoteCall) : Prop :=
  ∀ (i j : Nat) (opsi opsj : List BatchOp),
    tr[i]? = some (RemoteCall.batchUpdate opsi) →
    BatchOp.updateSettingsQuiz ∈ opsi →
    tr[j]? = some (RemoteCall.batchUpdate opsj) →
    (∃ rq, BatchOp.createItem rq ∈ opsj) → i < j

/-- With quiz mode on, the settings batch is non-empty. -/
lemma settingsOps_quiz_ne_empty (t : String) (d : Option String) :
    (settingsOpsFor t d true).isEmpty = false := by
  cases htd : truthy d <;> simp [settingsOpsFor, htd]

/-- With quiz mode on, the settings batch contains the quiz toggle. -/
lemma settingsOps_quiz_mem (t : String) (d : Option String) :
    BatchOp.updateSettingsQuiz ∈ settingsOpsFor t d true := by
  cases htd : truthy d <;> simp [settingsOpsFor, htd]

/-- Ordering holds on the full four-call trace shape. -/
lemma quizBefore_shape4 (t : String) (sOps qOps : List BatchOp)
    (hno : sOps.any hasCreateItem = false)
    (hnq : BatchOp.updateSettingsQuiz ∉ qOps) :
    quizBeforeQuestions [RemoteCall.createForm t, RemoteCall.batchUpdate sOps,
      RemoteCall.batchUpdate qOps, RemoteCall.getForm] := by
  intro i j opsi opsj h1 hm1 h2 hm2
  obtain ⟨rq, hm2'⟩ := hm2
  rcases j with _ | _ | _ | _ | j
  · simp at h2
  · simp only [List.getElem?_cons_succ, List.getElem?_cons_zero,
      Option.some.injEq, RemoteCall.batchUpdate.injEq] at h2
    subst h2
    rw [List.any_eq_false] at hno
    exact absurd rfl (hno _ hm2')
  · rcases i with _ | _ | _ | _ | i
    · simp at h1
    · decide
    · simp only [List.getElem?_cons_succ, List.getElem?_cons_zero,
        Option.some.injEq, RemoteCall.batchUpdate.injEq] at h1
      subst h1
      exact absurd hm1 hnq
    · simp at h1
    · simp at h1
  · simp at h2
  · simp at h2

/-- Ordering holds (vacuously) on the three-call trace shape with no
questions batch. -/
lemma quizBefore_shape3 (t : String) (sOps : List BatchOp)
    (hno : sOps.any hasCreateItem = false) :
    quizBeforeQuestions [RemoteCall.createForm t, RemoteCall.batchUpdate sOps,
      RemoteCall.getForm] := by
  intro i j opsi opsj h1 hm1 h2 hm2
  obtain ⟨rq, hm2'⟩ := hm2
  rcases j with _ | _ | _ | j
  · simp at h2
  · simp only [List.getElem?_cons_succ, List.getElem?_cons_zero,
      Option.some.injEq, RemoteCall.batchUpdate.injEq] at h2
    subst h2
    rw [List.any_eq_false] at hno
    exact absurd rfl (hno _ hm2')
  · simp at h2
  · simp at h2

/-- Ordering holds (vacuously) on the aborted two-call trace shape. -/
lemma quizBefore_shape2 (t : String) (sOps : List BatchOp)
    (hno : sOps.any hasCreateItem = false) :
    quizBeforeQuestions [RemoteCall.createForm t, RemoteCall.batchUpdate sOps] := by
  intro i j opsi opsj h1 hm1 h2 hm2
  obtain ⟨rq, hm2'⟩ := hm2
  rcases j with _ | _ | _ | j
  · simp at h2
  · simp only [List.getElem?_cons_succ, List.getElem?_cons_zero,
      Option.some.injEq, RemoteCall.batchUpdate.injEq] at h2
    subst h2
    rw [List.any_eq_false] at hno
    exact absurd rfl (hno _ hm2')
  · simp at h2
  · simp at h2

/-- C7: in every run with `is_quiz = true`, the trace contains a
settings-phase `batchUpdate` carrying the quiz-mode toggle, and every
such batch is issued strictly before every questions-phase
`batchUpdate`: grading-bearing question items are never sent before
quiz mode is enabled. -/
theorem c7_quiz_enabled_before_questions (cfg : FormConfig) (formId : String)
    (ruri : Option String) (hq : cfg.is_quiz.getD true = true) :
    (∃ (i : Nat) (ops : List BatchOp), (createFormFromConfig cfg formId ruri).1[i]?
        = some (RemoteCall.batchUpdate ops) ∧
      BatchOp.updateSettingsQuiz ∈ ops) ∧
    quizBeforeQuestions (createFormFromConfig cfg formId ruri).1 := by
  simp only [createFormFromConfig, hq, settingsOps_quiz_ne_empty,
    Bool.false_eq_true, if_false]
  by_cases hqe : cfg.questions.isEmpty = true
  · simp only [hqe, if_true, List.cons_append, List.singleton_append,
      List.nil_append]
    exact ⟨⟨1, _, rfl, settingsOps_quiz_mem _ _⟩,
      quizBefore_shape3 _ _ (settingsOps_no_createItem _ _ _)⟩
  · simp only [hqe, Bool.false_eq_true, if_false]
    cases hb : buildQuestionRequests cfg.questions true with
    | error e =>
        simp only [List.cons_append, List.singleton_append, List.nil_append]
        exact ⟨⟨1, _, rfl, settingsOps_quiz_mem _ _⟩,
          quizBefore_shape2 _ _ (settingsOps_no_createItem _ _ _)⟩
    | ok reqs =>
        have hlen : reqs.length = cfg.questions.length := by
          have hm := buildRequestsFrom_map_index cfg.questions 0 true reqs hb
          have := congrArg List.length hm
          simpa using this
        have hre : reqs.isEmpty = false := by
          cases hqs : cfg.questions with
          | nil => rw [hqs] at hqe; simp at hqe
          | cons a l =>
              rw [hqs] at hlen
              cases reqs with
              | nil => simp at hlen
              | cons b m => rfl
        simp only [hre, Bool.false_eq_true, if_false, List.cons_append,
          List.singleton_append, List.nil_append]
        refine ⟨⟨1, _, rfl, settingsOps_quiz_mem _ _⟩, ?_⟩
        exact quizBefore_shape4 _ _ _ (settingsOps_no_createItem _ _ _)
          (by simp [List.mem_map])

/-- Concrete quiz run with one question, for the C7 witness. -/
def cfgW7 : FormConfig := { is_quiz := some true, questions := [{}] }

/-- C7 witness: the ordering property evaluated on the concrete quiz
run `cfgW7`. -/
theorem c7_witness :
    (∃ (i : Nat) (ops : List BatchOp), (createFormFromConfig cfgW7 "f" none).1[i]?
        = some (RemoteCall.batchUpdate ops) ∧
      BatchOp.updateSettingsQuiz ∈ ops) ∧
    quizBeforeQuestions (createFormFromConfig cfgW7 "f" none).1 :=
  c7_quiz_enabled_before_questions cfgW7 "f" none (by decide)

/-! ### Claim C8 -/

/-- C8: for every RADIO or CHECKBOX question, the produced
`choiceQuestion` carries exactly the configuration's option list,
verbatim and in order, each option holding only its string value with no
correctness marker — independently of `correct_answers`, the quiz flag
and `points`. -/
theorem c8_options_verbatim_no_correctness (cfg : QuestionConfig) (i : Nat)
    (q : Bool) (r : CreateItemRequest)
    (ht : normType cfg = "RADIO" ∨ normType cfg = "CHECKBOX")
    (h : createQuestionRequest cfg i q = Except.ok r) :
    r.item.questionItem.question.kind
      = QuestionKind.choiceQuestion (normType cfg)
          (cfg.options.map fun v => { value := v, isCorrect := none })
          (cfg.shuffle.getD false) := by
  rcases dispatch_cases cfg i q r h with
    ⟨ht', hr⟩ | ⟨ht', hr⟩ | ⟨ht', hr⟩ | ⟨ht', hr⟩ | ⟨ht', hr⟩
  · simp [hr, createChoiceQuestion]
  all_goals rcases ht with ht | ht <;> rw [ht'] at ht <;> simp at ht

/-- Concrete RADIO quiz question with answers and points, for the C8
witness. -/
def cfgW8 : QuestionConfig :=
  { qtype := some "RADIO", options := ["A", "B", "C"],
    correct_answers := ["B"], points := some 3 }

/-- C8 witness: the option list of the concrete RADIO question `cfgW8`
is its configured options, value-only, even under `is_quiz = true` with
correct answers and points. -/
theorem c8_witness :
    (createChoiceQuestion cfgW8 0 true).item.questionItem.question.kind
      = QuestionKind.choiceQuestion (normType cfgW8)
          (cfgW8.options.map fun v => { value := v, isCorrect := none })
          (cfgW8.shuffle.getD false) :=
  c8_options_verbatim_no_correctness cfgW8 0 true
    (createChoiceQuestion cfgW8 0 true) (Or.inl (by decide)) (by decide)

/-! ### Claim C9 -/

/-- C9: a question configuration with no `type` field never makes the
builder fail: the missing value defaults to RADIO before the dispatch,
so the question is built as a RADIO choice question; dually, the
`Unsupported question type` error can only arise from a present `type`
value. -/
theorem c9_missing_type_defaults_to_radio (cfg : QuestionConfig) (i : Nat)
    (q : Bool) :
    (cfg.qtype = none →
      createQuestionRequest cfg i q = Except.ok (createChoiceQuestion cfg i q) ∧
      (createChoiceQuestion cfg i q).item.questionItem.question.kind
        = QuestionKind.choiceQuestion "RADIO"
            (cfg.options.map fun v => { value := v, isCorrect := none })
            (cfg.shuffle.getD false)) ∧
    (∀ e, createQuestionRequest cfg i q = Except.error e → cfg.qtype ≠ none) := by
  have hradio : cfg.qtype = none → normType cfg = "RADIO" := by
    intro hn
    rw [normType, hn]
    decide
  constructor
  · intro hn
    have ht := hradio hn
    exact ⟨by simp [createQuestionRequest, ht], by simp [createChoiceQuestion, ht]⟩
  · intro e he hn
    have ht := hradio hn
    have hok : createQuestionRequest cfg i q
        = Except.ok (createChoiceQuestion cfg i q) := by
      simp [createQuestionRequest, ht]
    rw [hok] at he
    simp at he

/-- C9 witness: the empty question configuration (no `type` field at
all) builds successfully as a RADIO choice question. -/
theorem c9_witness :
    createQuestionRequest ({} : QuestionConfig) 0 true
        = Except.ok (createChoiceQuestion {} 0 true) ∧
    (createChoiceQuestion ({} : QuestionConfig) 0 true).item.questionItem.question.kind
      = QuestionKind.choiceQuestion "RADIO"
          (({} : QuestionConfig).options.map fun v => { value := v, isCorrect := none })
          (({} : QuestionConfig).shuffle.getD false) :=
  (c9_missing_type_defaults_to_radio {} 0 true).1 rfl

/-! ### Claim C10 -/

/-- A sequence of supported question types always builds successfully. -/
lemma buildRequestsFrom_ok_of_supported :
    ∀ (qs : List QuestionConfig) (s : Nat) (b : Bool),
      (∀ qc ∈ qs, supportedType (normType qc) = true) →
      ∃ rs, buildRequestsFrom qs s b = Except.ok rs := by
  intro qs
  induction qs with
  | nil => intro s b _; exact ⟨[], rfl⟩
  | cons q' rest ih =>
      intro s b hall
      obtain ⟨r, hr⟩ := dispatch_ok q' s b (hall q' (List.mem_cons_self q' rest))
      obtain ⟨rs, hrs⟩ := ih (s + 1) b fun qc hqc =>
        hall qc (List.mem_cons_of_mem q' hqc)
      exact ⟨r :: rs, by simp only [buildRequestsFrom]; rw [hr, hrs]⟩

/-- C10: when the final `get` response carries no `responderUri` field,
a run over supported question types still completes: the result holds
the form id and the deterministically formatted edit URI, with
`responder_uri` simply absent. -/
theorem c10_missing_responder_uri_ok (cfg : FormConfig) (formId : String)
    (hall : ∀ qc ∈ cfg.questions, supportedType (normType qc) = true) :
    ∃ res, (createFormFromConfig cfg formId none).2 = Except.ok res ∧
      res.form_id = formId ∧ res.responder_uri = none ∧
      res.edit_uri = "https://docs.google.com/forms/d/" ++ formId ++ "/edit" := by
  refine ⟨FormResult.mk formId none
    ("https://docs.google.com/forms/d/" ++ formId ++ "/edit"), ?_, rfl, rfl, rfl⟩
  simp only [createFormFromConfig]
  by_cases hqe : cfg.questions.isEmpty = true
  · simp [hqe]
  · obtain ⟨rs, hrs⟩ :=
      buildRequestsFrom_ok_of_supported cfg.questions 0 (cfg.is_quiz.getD true) hall
    simp only [hqe, Bool.false_eq_true, if_false, buildQuestionRequests]
    rw [hrs]

/-- C10 witness: a one-question run with no `responderUri` in the get
response completes with `responder_uri = none`. -/
theorem c10_witness :
    ∃ res, (createFormFromConfig { questions := [{}] } "f42" none).2
        = Except.ok res ∧
      res.form_id = "f42" ∧ res.responder_uri = none ∧
      res.edit_uri = "https://docs.google.com/forms/d/" ++ "f42" ++ "/edit" :=
  c10_missing_responder_uri_ok { questions := [{}] } "f42" (by decide)

end GForms
